import Mathlib

/-!
Verification development for the `cot_publisher` Rust library (src/lib.rs).

The library publishes Cursor-on-Target events over two transports: a UDP
multicast datagram and a TCP (optionally TLS) stream to a TAK server.  The
embedding below translates the state held by `CotPublisher`, its setters,
and the network-facing operations `connect` and `publish` into pure Lean
functions.  Network I/O is modelled by an explicit environment (`NetEnv`)
that decides the outcome of each system call, and the observable effects of
an operation are collected into a trace of `NetEvent`s.  A `.unwrap()` on a
failing operation in the Rust source is modelled as a `panicked` flag.
-/

/-- Mirrors the Rust `IpAddr` value; only its `Display` form is ever used. -/
abbrev IpAddr := String

/-- Mirrors `url::Url`; only its `to_string` form is ever used. -/
abbrev Url := String

/-- Mirrors `enum PEM { None, File(String), String(String) }`. -/
inductive PEM where
  | none
  | file (s : String)
  | string (s : String)
deriving DecidableEq

/-- Mirrors `pub struct TakServerSetting`. -/
structure TakServerSetting where
  tls : Bool
  client_key : PEM
  client_cert : PEM
  root_cert : PEM
  ignore_invalid : Bool
  verify_hostname : Bool
deriving DecidableEq

/-- Mirrors the private `struct Contact` held by the publisher. -/
structure Contact where
  endpoint : String
  callsign : String
deriving DecidableEq

/-- Mirrors the private `struct Position`. -/
structure Position where
  lat : Float
  lng : Float
  hae : Float
  ce : Float
  le : Float

/-- Mirrors the private `struct PrecisionLocation`. -/
structure PrecisionLocation where
  altsrc : String
  geopointsrc : String
deriving DecidableEq

/-- Mirrors `enum StreamOptions { Tls(SslStream<TcpStream>), Tcp(TcpStream) }`;
a live stream is represented by an abstract socket handle. -/
inductive StreamOptions where
  | tls (h : Nat)
  | tcp (h : Nat)
deriving DecidableEq

/-- The socket handle carried by either variant of `StreamOptions`. -/
def StreamOptions.handle : StreamOptions → Nat
  | .tls h => h
  | .tcp h => h

/-- Mirrors `pub struct CotPublisher`.  A `UdpSocket` is an abstract handle. -/
structure CotPublisher where
  multicast : Option (IpAddr × Nat)
  tak_server_ip_address : Option (IpAddr × Nat)
  tak_server_domain : Option Url
  tak_server_settings : Option TakServerSetting
  stale_time_ms : Nat
  uid : String
  contact : Option Contact
  type : String
  xml_detail : Option String
  position : Option Position
  precision_location : Option PrecisionLocation
  how : String
  access : String
  qos : String
  opex : String
  multicast_socket : Option Nat
  tak_server_socket : Option StreamOptions

namespace tak_proto

/-- Modelled from the spec: the generated protobuf control block (the prost
generated module `tak_proto` is produced at build time and is not under
`src/`); §6 lists min/max protocol version and a contact identifier. -/
structure TakControl where
  min_proto_version : Nat
  max_proto_version : Nat
  contact_uid : String

/-- Modelled from the spec: the generated protobuf contact sub-block. -/
structure Contact where
  endpoint : String
  callsign : String

/-- Modelled from the spec: the generated protobuf precision-location
sub-block. -/
structure PrecisionLocation where
  geopointsrc : String
  altsrc : String

/-- Modelled from the spec: the generated protobuf detail block; the group,
status, takv and track sub-blocks are always absent from this client, so
they are represented by `Option Unit`. -/
structure Detail where
  xml_detail : String
  contact : Option Contact
  group : Option Unit
  precision_location : Option PrecisionLocation
  status : Option Unit
  takv : Option Unit
  track : Option Unit

/-- Modelled from the spec: the generated protobuf event block; timestamps
are epoch milliseconds held in a `u64`, represented as `Nat`. -/
structure CotEvent where
  type : String
  access : String
  qos : String
  opex : String
  uid : String
  send_time : Nat
  start_time : Nat
  stale_time : Nat
  how : String
  lat : Float
  lon : Float
  hae : Float
  ce : Float
  le : Float
  detail : Option Detail

/-- Modelled from the spec: the top-level generated protobuf message. -/
structure TakMessage where
  tak_control : Option TakControl
  cot_event : Option CotEvent

end tak_proto

/-- Mirrors `const PROTOCOL_CHANGE: &str = r"..."`.  The Rust source uses a
raw string literal, so the trailing `\n\n` in the source are two literal
backslash-n character pairs, not newline characters; the newlines between
the XML lines are real newlines from the source layout. -/
def PROTOCOL_CHANGE : String :=
  "\n    <event version=\x272.0\x27 uid=\x27protouid\x27 type=\x27t-x-takp-q\x27 time=\x27TIME\x27 start=\x27TIME\x27 stale=\x27TIME\x27 how=\x27m-g\x27>\n      <point lat=\x270.0\x27 lon=\x270.0\x27 hae=\x270.0\x27 ce=\x27999999\x27 le=\x27999999\x27/>\n      <detail>\n        <TakControl>\n          <TakRequest version=\x271\x27/>\n        </TakControl>\n      </detail>\n    </event>\\n\\n"

/-- The bytes of `PROTOCOL_CHANGE.as_bytes()`; the string is pure ASCII so
the UTF-8 bytes are the character codes. -/
def protocol_change_bytes : List Nat := PROTOCOL_CHANGE.data.map Char.toNat

/-- Unsigned LEB128 encoding as performed by `varint_rs`'s
`write_u32_varint`: 7 data bits per byte, least-significant group first,
continuation bit `0x80` on every byte but the last.  A `u32` needs at most
5 output bytes, so a fuel of 6 makes the function total and exact on every
input below `2^32` (in fact below `128^6`). -/
def leb128_aux : Nat → Nat → List Nat
  | 0, n => [n]
  | fuel + 1, n => if n < 128 then [n] else (n % 128 + 128) :: leb128_aux fuel (n / 128)

/-- Mirrors `CotPublisher::get_varint(size: u32)`.  The `as u32` cast at the
call site is part of the model: the argument is reduced modulo `2^32`. -/
def get_varint (size : Nat) : List Nat :=
  leb128_aux 6 (size % 4294967296)

/-- Specification-side decoder for unsigned LEB128, used to state that the
length prefix written on the stream decodes to the length of the payload
that follows it. -/
def decode_varint : List Nat → Nat
  | [] => 0
  | b :: rest => b % 128 + 128 * decode_varint rest

theorem decode_leb128_aux (fuel n : Nat) (h : n < 128 ^ fuel) :
    decode_varint (leb128_aux fuel n) = n := by
  induction fuel generalizing n with
  | zero =>
    simp only [pow_zero, Nat.lt_one_iff] at h
    subst h
    simp [leb128_aux, decode_varint]
  | succ fuel ih =>
    by_cases hn : n < 128
    · simp only [leb128_aux, hn, if_true, decode_varint]
      omega
    · have hdiv : n / 128 < 128 ^ fuel := by
        rw [Nat.div_lt_iff_lt_mul (by norm_num)]
        calc n < 128 ^ (fuel + 1) := h
        _ = 128 ^ fuel * 128 := by ring
      simp only [leb128_aux, hn, if_false, decode_varint]
      rw [ih (n / 128) hdiv]
      omega

theorem decode_get_varint (n : Nat) (h : n < 4294967296) :
    decode_varint (get_varint n) = n := by
  unfold get_varint
  rw [Nat.mod_eq_of_lt h]
  exact decode_leb128_aux 6 n (lt_trans h (by norm_num))

/-- Mirrors `CotPublisher::get_time`: epoch milliseconds cast `as u64`.
The current wall-clock reading (in milliseconds) is supplied by the
environment. -/
def get_time (now_ms : Nat) : Nat := now_ms % 18446744073709551616

/-- The default position (all fields zero) used by `create_cot` when no
position has been configured. -/
def default_position : Position := ⟨0.0, 0.0, 0.0, 0.0, 0.0⟩

/-- Mirrors `CotPublisher::create_cot`.  The `u64` addition computing the
stale time wraps modulo `2^64`. -/
def create_cot (s : CotPublisher) (now_ms : Nat) : tak_proto.TakMessage :=
  let pos := s.position.getD default_position
  let time := get_time now_ms
  { tak_control := some { min_proto_version := 2, max_proto_version := 2, contact_uid := s.uid },
    cot_event := some {
      type := s.type,
      access := s.access,
      qos := s.qos,
      opex := s.opex,
      uid := s.uid,
      send_time := time,
      start_time := time,
      stale_time := (time + s.stale_time_ms) % 18446744073709551616,
      how := s.how,
      lat := pos.lat,
      lon := pos.lng,
      hae := pos.hae,
      ce := pos.ce,
      le := pos.le,
      detail := some {
        xml_detail := s.xml_detail.getD "",
        contact := s.contact.map fun c => { endpoint := c.endpoint, callsign := c.callsign },
        group := none,
        precision_location := s.precision_location.map fun p =>
          { geopointsrc := p.geopointsrc, altsrc := p.altsrc },
        status := none,
        takv := none,
        track := none } } }

/-- An observable network-facing effect of an operation. -/
inductive NetEvent where
  | udpBind (addr : String) (ok : Bool)
  | udpSendTo (h : Nat) (bytes : List Nat) (dest : IpAddr × Nat)
  | tcpConnect (addr : String) (ok : Bool)
  | tlsConnect (addr : String) (ok : Bool)
  | streamWrite (h : Nat) (bytes : List Nat)
  | setReadTimeout (h : Nat) (ms : Nat)
  | sleep (ms : Nat)
  | readDrain (h : Nat)
  | shutdown (h : Nat)
deriving DecidableEq

/-- The environment decides the outcome of every system call an operation
may issue.  A handle-returning call yields `some h` on success and `none`
on failure; a `Bool` field is the success of the corresponding call.  The
`now` field is the wall-clock reading in epoch milliseconds. -/
structure NetEnv where
  now : Nat
  udp_bind : Option Nat
  udp_send_ok : Bool
  tcp_connect : Option Nat
  ssl_builder_ok : Bool
  set_ca_file_ok : Bool
  stack_from_pem_ok : Bool
  x509_store_new_ok : Bool
  add_cert_ok : Bool
  set_verify_cert_store_ok : Bool
  set_certificate_file_ok : Bool
  x509_from_pem_ok : Bool
  set_certificate_ok : Bool
  set_private_key_file_ok : Bool
  pkey_from_pem_ok : Bool
  set_private_key_ok : Bool
  tls_connect : Option Nat
  tls_handshake_write_ok : Bool

/-- Result of running a whole operation: whether a `.unwrap()`/`.expect()`
panicked, the publisher state afterwards, and the trace of effects issued
up to (and including) the failing call. -/
structure RunResult where
  panicked : Bool
  state : CotPublisher
  trace : List NetEvent

/-- Result of `CotPublisher::tak_server_connect`. -/
structure ConnResult where
  socket : Option StreamOptions
  trace : List NetEvent
  panic : Bool

/-- Mirrors `CotPublisher::new`. -/
def new (uid ty : String) : CotPublisher :=
  { multicast := none,
    tak_server_ip_address := none,
    tak_server_domain := none,
    tak_server_settings := none,
    stale_time_ms := 60 * 1000,
    uid := uid,
    contact := none,
    type := ty,
    xml_detail := none,
    position := none,
    precision_location := none,
    how := "m-g",
    access := "",
    qos := "",
    opex := "",
    multicast_socket := none,
    tak_server_socket := none }

/-- Mirrors `CotPublisher::clear_multicast`. -/
def clear_multicast (s : CotPublisher) : CotPublisher :=
  { s with multicast := none, multicast_socket := none }

/-- Mirrors `CotPublisher::set_multicast`. -/
def set_multicast (s : CotPublisher) (address : IpAddr) (port : Nat) : CotPublisher :=
  { clear_multicast s with multicast := some (address, port) }

/-- The graceful shutdown issued by `clear_tak_server` on an open stream
(`SslStream::shutdown` or `TcpStream::shutdown(Both)`, errors ignored). -/
def shutdown_events : Option StreamOptions → List NetEvent
  | some (StreamOptions.tls h) => [NetEvent.shutdown h]
  | some (StreamOptions.tcp h) => [NetEvent.shutdown h]
  | none => []

/-- Mirrors `CotPublisher::clear_tak_server`; returns the new state and the
trace of shutdown effects. -/
def clear_tak_server (s : CotPublisher) : CotPublisher × List NetEvent :=
  ({ s with tak_server_ip_address := none, tak_server_socket := none },
   shutdown_events s.tak_server_socket)

/-- Mirrors `CotPublisher::set_tak_server_domain`. -/
def set_tak_server_domain (s : CotPublisher) (domain : Url) : CotPublisher × List NetEvent :=
  ({ (clear_tak_server s).1 with tak_server_ip_address := none, tak_server_domain := some domain },
   (clear_tak_server s).2)

/-- Mirrors `CotPublisher::set_tak_server_ip_address`. -/
def set_tak_server_ip_address (s : CotPublisher) (address : IpAddr) (port : Nat) :
    CotPublisher × List NetEvent :=
  ({ (clear_tak_server s).1 with
      tak_server_domain := none
      tak_server_ip_address := some (address, port) },
   (clear_tak_server s).2)

/-- Mirrors `CotPublisher::set_tak_server_tls_settings`. -/
def set_tak_server_tls_settings (s : CotPublisher) (settings : Option TakServerSetting) :
    CotPublisher :=
  { s with tak_server_settings := settings }

/-- Mirrors `CotPublisher::set_contact`. -/
def set_contact (s : CotPublisher) (callsign endpoint : Option String) : CotPublisher :=
  if callsign.isNone && endpoint.isNone then { s with contact := none }
  else { s with contact := some { endpoint := endpoint.getD "", callsign := callsign.getD "" } }

/-- Mirrors `CotPublisher::set_xml_detail`. -/
def set_xml_detail (s : CotPublisher) (xml_detail : Option String) : CotPublisher :=
  { s with xml_detail := xml_detail }

/-- Mirrors `CotPublisher::set_position`. -/
def set_position (s : CotPublisher) (lat lng : Float) : CotPublisher :=
  match s.position with
  | some pos => { s with position := some { pos with lat := lat, lng := lng } }
  | none => { s with position := some ⟨lat, lng, 0.0, 0.0, 0.0⟩ }

/-- Mirrors `CotPublisher::set_position_extended`. -/
def set_position_extended (s : CotPublisher) (lat lng hae ce le : Float) : CotPublisher :=
  { s with position := some ⟨lat, lng, hae, ce, le⟩ }

/-- Mirrors `CotPublisher::set_precision_location`. -/
def set_precision_location (s : CotPublisher) (geopointsrc altsrc : Option String) :
    CotPublisher :=
  if geopointsrc.isNone && altsrc.isNone then { s with precision_location := none }
  else
    { s with
      precision_location := some { altsrc := altsrc.getD "", geopointsrc := geopointsrc.getD "" } }

/-- The default `TakServerSetting` constructed inline by
`tak_server_connect` when no settings were supplied. -/
def default_settings : TakServerSetting :=
  { tls := false, client_key := PEM.none, client_cert := PEM.none, root_cert := PEM.none,
    ignore_invalid := true, verify_hostname := false }

/-- The endpoint string `tak_server_connect` resolves: IP-address mode
formats `"{ip}:{port}"`, otherwise the domain URL's string form. -/
def server_address (s : CotPublisher) : String :=
  match s.tak_server_ip_address with
  | some ip => ip.1 ++ ":" ++ toString ip.2
  | none =>
    match s.tak_server_domain with
    | some domain => domain
    | none => "Unreachable"

/-- Outcome of one TLS-context configuration step: success, a logged
failure that resolves the whole attempt to "no connection", or a panic
from a `.unwrap()` on bad inline PEM material. -/
inductive CfgStep where
  | ok
  | failed
  | panic
deriving DecidableEq

/-- The root-certificate installation step of `tak_server_connect`.  A file
path failure is logged (`set_ca_file`); inline PEM text is parsed with
`X509::stack_from_pem(..).unwrap()` and each certificate added with
`store.add_cert(..).unwrap()`, so parse/store failures panic, while
`set_verify_cert_store` failure is logged. -/
def root_cert_step (p : PEM) (env : NetEnv) : CfgStep :=
  match p with
  | PEM.none => CfgStep.ok
  | PEM.file _ => if env.set_ca_file_ok then CfgStep.ok else CfgStep.failed
  | PEM.string _ =>
    if !env.stack_from_pem_ok then CfgStep.panic
    else if !env.x509_store_new_ok then CfgStep.panic
    else if !env.add_cert_ok then CfgStep.panic
    else if env.set_verify_cert_store_ok then CfgStep.ok else CfgStep.failed

/-- The client-certificate installation step: file failures are logged,
inline PEM is parsed with `X509::from_pem(..).unwrap()` (panic), and
`set_certificate` failure is logged. -/
def client_cert_step (p : PEM) (env : NetEnv) : CfgStep :=
  match p with
  | PEM.none => CfgStep.ok
  | PEM.file _ => if env.set_certificate_file_ok then CfgStep.ok else CfgStep.failed
  | PEM.string _ =>
    if !env.x509_from_pem_ok then CfgStep.panic
    else if env.set_certificate_ok then CfgStep.ok else CfgStep.failed

/-- The client-private-key installation step: file failures are logged,
inline PEM is parsed with `PKey::private_key_from_pem(..).unwrap()`
(panic), and `set_private_key` failure is logged. -/
def client_key_step (p : PEM) (env : NetEnv) : CfgStep :=
  match p with
  | PEM.none => CfgStep.ok
  | PEM.file _ => if env.set_private_key_file_ok then CfgStep.ok else CfgStep.failed
  | PEM.string _ =>
    if !env.pkey_from_pem_ok then CfgStep.panic
    else if env.set_private_key_ok then CfgStep.ok else CfgStep.failed

/-- The three TLS-context configuration steps of `tak_server_connect`, in
source order (root certificate, client certificate, client key); the first
non-`ok` outcome decides the result. -/
def tls_steps (settings : TakServerSetting) (env : NetEnv) : CfgStep :=
  match root_cert_step settings.root_cert env with
  | CfgStep.ok =>
    match client_cert_step settings.client_cert env with
    | CfgStep.ok => client_key_step settings.client_key env
    | r => r
  | r => r

/-- Mirrors `CotPublisher::tak_server_connect`.  Note that on TCP-connect
failure the error log unwraps `self.tak_server_ip_address`, which panics
when only a domain URL is configured. -/
def tak_server_connect (s : CotPublisher) (env : NetEnv) : ConnResult :=
  if s.tak_server_ip_address.isNone && s.tak_server_domain.isNone then
    ⟨none, [], false⟩
  else
    match env.tcp_connect with
    | none =>
      ⟨none, [NetEvent.tcpConnect (server_address s) false], !s.tak_server_ip_address.isSome⟩
    | some h =>
      if !(s.tak_server_settings.getD default_settings).tls then
        ⟨some (StreamOptions.tcp h),
         [NetEvent.tcpConnect (server_address s) true,
          NetEvent.streamWrite h protocol_change_bytes], false⟩
      else if !env.ssl_builder_ok then
        ⟨none, [NetEvent.tcpConnect (server_address s) true], true⟩
      else
        match tls_steps (s.tak_server_settings.getD default_settings) env with
        | CfgStep.panic => ⟨none, [NetEvent.tcpConnect (server_address s) true], true⟩
        | CfgStep.failed => ⟨none, [NetEvent.tcpConnect (server_address s) true], false⟩
        | CfgStep.ok =>
          match env.tls_connect with
          | none =>
            ⟨none, [NetEvent.tcpConnect (server_address s) true,
                    NetEvent.tlsConnect (server_address s) false], false⟩
          | some h2 =>
            if !env.tls_handshake_write_ok then
              ⟨none, [NetEvent.tcpConnect (server_address s) true,
                      NetEvent.tlsConnect (server_address s) true,
                      NetEvent.setReadTimeout h2 100,
                      NetEvent.streamWrite h2 protocol_change_bytes], true⟩
            else
              ⟨some (StreamOptions.tls h2),
               [NetEvent.tcpConnect (server_address s) true,
                NetEvent.tlsConnect (server_address s) true,
                NetEvent.setReadTimeout h2 100,
                NetEvent.streamWrite h2 protocol_change_bytes,
                NetEvent.sleep 300,
                NetEvent.readDrain h2], false⟩

/-- Mirrors `CotPublisher::connect`: `self.tak_server_socket =
self.tak_server_connect()`; on panic the assignment never happens. -/
def connect (s : CotPublisher) (env : NetEnv) : RunResult :=
  if (tak_server_connect s env).panic then ⟨true, s, (tak_server_connect s env).trace⟩
  else ⟨false, { s with tak_server_socket := (tak_server_connect s env).socket },
        (tak_server_connect s env).trace⟩

/-- The local bind address used by `CotPublisher::multicast_connect`. -/
def multicast_bind_addr : String := "192.168.240.1:0"

/-- The lazy-bind step of the multicast branch of `publish`
(`self.multicast_socket = CotPublisher::multicast_connect()` when absent):
returns the updated state and the bind trace. -/
def mcast_ensure_socket (s : CotPublisher) (env : NetEnv) : CotPublisher × List NetEvent :=
  match s.multicast_socket with
  | some _ => (s, [])
  | none =>
    match env.udp_bind with
    | some h => ({ s with multicast_socket := some h },
                 [NetEvent.udpBind multicast_bind_addr true])
    | none => (s, [NetEvent.udpBind multicast_bind_addr false])

/-- Result of the multicast block of `publish`: the state, the trace, the
remaining contents of `message_buffer` (drained to `[]` by `Vec::append`
when a datagram was built), and whether `send_to(..).unwrap()` panicked. -/
structure McastResult where
  state : CotPublisher
  trace : List NetEvent
  buffer : List Nat
  panicked : Bool

/-- The multicast block of `publish` (source lines 223-233).  When a socket
is available the frame `[0xbf, 0x01, 0xbf] ++ message_buffer` is sent as
one datagram and `buffer.append(&mut message_buffer)` leaves
`message_buffer` empty. -/
def multicast_block (s : CotPublisher) (env : NetEnv) (message_buffer : List Nat) : McastResult :=
  match s.multicast with
  | none => ⟨s, [], message_buffer, false⟩
  | some target =>
    match (mcast_ensure_socket s env).1.multicast_socket with
    | some h =>
      ⟨(mcast_ensure_socket s env).1,
       (mcast_ensure_socket s env).2 ++
         [NetEvent.udpSendTo h ([0xbf, 0x01, 0xbf] ++ message_buffer) target],
       [], !env.udp_send_ok⟩
    | none => ⟨(mcast_ensure_socket s env).1, (mcast_ensure_socket s env).2, message_buffer, false⟩

/-- The three sequential `write_all` calls framing one event on the server
stream: magic `0xbf`, the varint of `message_buffer.len() as u32`, then the
payload bytes.  Write errors are ignored (`.ok()`). -/
def frame_writes (h : Nat) (message_buffer : List Nat) : List NetEvent :=
  [NetEvent.streamWrite h [0xbf],
   NetEvent.streamWrite h (get_varint message_buffer.length),
   NetEvent.streamWrite h message_buffer]

/-- Result of the server block of `publish`. -/
structure BlockResult where
  state : CotPublisher
  trace : List NetEvent
  panicked : Bool

/-- The server block of `publish` (source lines 235-262): guarded by
`tak_server_ip_address.is_some()`, lazily connecting when the socket is
absent, then issuing the three framed writes on whichever stream variant is
open. -/
def server_block (s : CotPublisher) (env : NetEnv) (message_buffer : List Nat) : BlockResult :=
  if s.tak_server_ip_address.isSome then
    match s.tak_server_socket with
    | some opt => ⟨s, frame_writes opt.handle message_buffer, false⟩
    | none =>
      if (tak_server_connect s env).panic then ⟨s, (tak_server_connect s env).trace, true⟩
      else
        match (tak_server_connect s env).socket with
        | some opt =>
          ⟨{ s with tak_server_socket := (tak_server_connect s env).socket },
           (tak_server_connect s env).trace ++ frame_writes opt.handle message_buffer, false⟩
        | none => ⟨{ s with tak_server_socket := none }, (tak_server_connect s env).trace, false⟩
  else ⟨s, [], false⟩

/-- Mirrors `CotPublisher::publish`.  The serializer produced by prost is
external to this crate and is passed in as the opaque function `enc`
(the spec treats it as "an opaque serializer producing a byte sequence from
a structured event"). -/
def publish (s : CotPublisher) (enc : tak_proto.TakMessage → List Nat) (env : NetEnv) :
    RunResult :=
  if s.multicast.isNone && s.tak_server_ip_address.isNone then
    ⟨false, s, []⟩
  else
    if (multicast_block s env (enc (create_cot s env.now))).panicked then
      ⟨true, (multicast_block s env (enc (create_cot s env.now))).state,
       (multicast_block s env (enc (create_cot s env.now))).trace⟩
    else
      ⟨(server_block (multicast_block s env (enc (create_cot s env.now))).state env
          (multicast_block s env (enc (create_cot s env.now))).buffer).panicked,
       (server_block (multicast_block s env (enc (create_cot s env.now))).state env
          (multicast_block s env (enc (create_cot s env.now))).buffer).state,
       (multicast_block s env (enc (create_cot s env.now))).trace ++
         (server_block (multicast_block s env (enc (create_cot s env.now))).state env
            (multicast_block s env (enc (create_cot s env.now))).buffer).trace⟩

/-- One call to a public configuration method of `CotPublisher` (the
network-effect traces of the two server-target setters are discarded here;
they are examined separately). -/
inductive SetterCall where
  | setMulticast (a : IpAddr) (p : Nat)
  | clearMulticast
  | setTakServerDomain (d : Url)
  | setTakServerIpAddress (a : IpAddr) (p : Nat)
  | clearTakServer
  | setTakServerTlsSettings (t : Option TakServerSetting)
  | setContact (c e : Option String)
  | setXmlDetail (x : Option String)
  | setPosition (lat lng : Float)
  | setPositionExtended (lat lng hae ce le : Float)
  | setPrecisionLocation (g a : Option String)
  | setHow (v : String)
  | setAccess (v : String)
  | setQos (v : String)
  | setOpex (v : String)

/-- Applies one configuration call to the state. -/
def apply_setter (c : SetterCall) (s : CotPublisher) : CotPublisher :=
  match c with
  | SetterCall.setMulticast a p => set_multicast s a p
  | SetterCall.clearMulticast => clear_multicast s
  | SetterCall.setTakServerDomain d => (set_tak_server_domain s d).1
  | SetterCall.setTakServerIpAddress a p => (set_tak_server_ip_address s a p).1
  | SetterCall.clearTakServer => (clear_tak_server s).1
  | SetterCall.setTakServerTlsSettings t => set_tak_server_tls_settings s t
  | SetterCall.setContact c e => set_contact s c e
  | SetterCall.setXmlDetail x => set_xml_detail s x
  | SetterCall.setPosition lat lng => set_position s lat lng
  | SetterCall.setPositionExtended lat lng hae ce le => set_position_extended s lat lng hae ce le
  | SetterCall.setPrecisionLocation g a => set_precision_location s g a
  | SetterCall.setHow v => { s with how := v }
  | SetterCall.setAccess v => { s with access := v }
  | SetterCall.setQos v => { s with qos := v }
  | SetterCall.setOpex v => { s with opex := v }

/-- Applies a sequence of configuration calls, oldest first. -/
def apply_setters (l : List SetterCall) (s : CotPublisher) : CotPublisher :=
  l.foldl (fun s c => apply_setter c s) s

/-- Number of graceful-shutdown effects in a trace. -/
def count_shutdowns (tr : List NetEvent) : Nat :=
  (tr.filter fun e => match e with | NetEvent.shutdown _ => true | _ => false).length


/-! ## Concrete fixtures used by witnesses and counterexamples -/

/-- An environment in which every system call succeeds. -/
def env_ok : NetEnv :=
  { now := 0, udp_bind := some 0, udp_send_ok := true, tcp_connect := some 1,
    ssl_builder_ok := true, set_ca_file_ok := true, stack_from_pem_ok := true,
    x509_store_new_ok := true, add_cert_ok := true, set_verify_cert_store_ok := true,
    set_certificate_file_ok := true, x509_from_pem_ok := true, set_certificate_ok := true,
    set_private_key_file_ok := true, pkey_from_pem_ok := true, set_private_key_ok := true,
    tls_connect := some 2, tls_handshake_write_ok := true }

/-- `env_ok` with a failing multicast `send_to`. -/
def env_sendfail : NetEnv := { env_ok with udp_send_ok := false }

/-- `env_ok` with a failing UDP bind. -/
def env_bindfail : NetEnv := { env_ok with udp_bind := none }

/-- A concrete stand-in for the opaque prost serializer. -/
def enc0 : tak_proto.TakMessage → List Nat := fun _ => [5, 6, 7]

/-- A publisher with both destinations configured and both sockets open. -/
def c1_state : CotPublisher :=
  { new "uid1" "a-f-G" with
    multicast := some ("239.2.3.1", 6969)
    multicast_socket := some 0
    tak_server_ip_address := some ("10.0.0.1", 8089)
    tak_server_socket := some (StreamOptions.tcp 1) }

/-! ## Claims -/

/-- Claim C9: the varint length encoder maps 0, 127, 128 and 300 to
`[0x00]`, `[0x7F]`, `[0x80, 0x01]` and `[0xAC, 0x02]` respectively. -/
theorem c9_varint_encodings :
    get_varint 0 = [0x00] ∧ get_varint 127 = [0x7f] ∧
    get_varint 128 = [0x80, 0x01] ∧ get_varint 300 = [0xac, 0x02] := by
  decide

set_option maxRecDepth 4096 in
/-- Claim C5 (code bug): the handshake announcement `PROTOCOL_CHANGE` is a
fixed constant, but because the Rust source writes it as a raw string
literal its final four bytes are `'\' 'n' '\' 'n'` (92, 110, 92, 110), i.e.
two literal backslash-n pairs, and in particular its last two bytes are
`'\' 'n'` rather than two newline (10) characters as the claim states.  The
lists below are reversed, so they list the last bytes first. -/
theorem c5_handshake_trailing_bytes :
    protocol_change_bytes.reverse.take 4 = [110, 92, 110, 92] ∧
    protocol_change_bytes.reverse.take 2 = [110, 92] ∧
    protocol_change_bytes.length = 303 := by
  decide

/-- Claim C8: the event created at serialization time carries
`send = start = now`, and `stale - send` equals the configured
`stale_time_ms` (no `u64` wrap under the stated bound). -/
theorem c8_stale_offset (s : CotPublisher) (t : Nat)
    (h : get_time t + s.stale_time_ms < 18446744073709551616) :
    ∃ e, (create_cot s t).cot_event = some e ∧
      e.send_time = get_time t ∧
      e.start_time = e.send_time ∧
      e.stale_time = e.send_time + s.stale_time_ms ∧
      e.stale_time - e.send_time = s.stale_time_ms := by
  refine ⟨_, rfl, rfl, rfl, ?_, ?_⟩
  · show (get_time t + s.stale_time_ms) % 18446744073709551616 = get_time t + s.stale_time_ms
    exact Nat.mod_eq_of_lt h
  · show (get_time t + s.stale_time_ms) % 18446744073709551616 - get_time t = s.stale_time_ms
    rw [Nat.mod_eq_of_lt h]
    omega

/-- Witness for C8 at a concrete publisher and clock value. -/
theorem c8_stale_offset_witness :
    (get_time 1700000000000 + (new "u1" "a-f-G").stale_time_ms < 18446744073709551616) ∧
    (∃ e, (create_cot (new "u1" "a-f-G") 1700000000000).cot_event = some e ∧
      e.send_time = get_time 1700000000000 ∧
      e.start_time = e.send_time ∧
      e.stale_time = e.send_time + (new "u1" "a-f-G").stale_time_ms ∧
      e.stale_time - e.send_time = (new "u1" "a-f-G").stale_time_ms) :=
  ⟨by decide, c8_stale_offset (new "u1" "a-f-G") 1700000000000 (by decide)⟩

/-- Claim C10: `clear_tak_server` clears the IP-address target and the
socket (issuing exactly one graceful shutdown when a connection was open)
and leaves the domain target, the TLS settings and the multicast state
unchanged, so a previously set domain target is still configured
afterwards. -/
theorem c10_clear_tak_server_frame (s : CotPublisher) :
    (clear_tak_server s).1.tak_server_ip_address = none ∧
    (clear_tak_server s).1.tak_server_socket = none ∧
    (clear_tak_server s).1.tak_server_domain = s.tak_server_domain ∧
    (clear_tak_server s).1.tak_server_settings = s.tak_server_settings ∧
    (clear_tak_server s).1.multicast = s.multicast ∧
    (clear_tak_server s).1.multicast_socket = s.multicast_socket ∧
    (clear_tak_server s).1.tak_server_domain.isSome = s.tak_server_domain.isSome ∧
    count_shutdowns (clear_tak_server s).2 = if s.tak_server_socket.isSome then 1 else 0 := by
  refine ⟨rfl, rfl, rfl, rfl, rfl, rfl, rfl, ?_⟩
  rcases hs : s.tak_server_socket with _ | opt
  · simp [clear_tak_server, shutdown_events, count_shutdowns, hs]
  · cases opt <;> simp [clear_tak_server, shutdown_events, count_shutdowns, hs]

/-- Claim C1 (code bug): with both destinations configured and both
sockets open, the multicast datagram carries the serialized payload but
the server frame carries an empty payload with varint length 0, because
`buffer.append(&mut message_buffer)` drains `message_buffer` into the
multicast frame before the server writes are issued. -/
theorem c1_shared_buffer_drained :
    enc0 (create_cot c1_state env_ok.now) = [5, 6, 7] ∧
    (publish c1_state enc0 env_ok).panicked = false ∧
    (publish c1_state enc0 env_ok).trace =
      [NetEvent.udpSendTo 0 [0xbf, 0x01, 0xbf, 5, 6, 7] ("239.2.3.1", 6969),
       NetEvent.streamWrite 1 [0xbf],
       NetEvent.streamWrite 1 [0x00],
       NetEvent.streamWrite 1 []] := by
  refine ⟨rfl, rfl, by decide⟩

/-! ## Claim C7: mutual exclusion of the server addressing modes -/

/-- At most one server addressing mode is held. -/
def server_mutex (s : CotPublisher) : Prop :=
  s.tak_server_ip_address = none ∨ s.tak_server_domain = none

theorem apply_setter_mutex (c : SetterCall) (s : CotPublisher) (h : server_mutex s) :
    server_mutex (apply_setter c s) := by
  unfold server_mutex at h ⊢
  cases c <;>
    simp only [apply_setter, set_multicast, clear_multicast, set_tak_server_domain,
      set_tak_server_ip_address, clear_tak_server, set_tak_server_tls_settings, set_contact,
      set_xml_detail, set_position, set_position_extended, set_precision_location] <;>
    (try split) <;> simp_all

theorem apply_setters_mutex (l : List SetterCall) (s : CotPublisher) (h : server_mutex s) :
    server_mutex (apply_setters l s) := by
  induction l generalizing s with
  | nil => exact h
  | cons c l ih => exact ih (apply_setter c s) (apply_setter_mutex c s h)

theorem count_shutdowns_shutdown_events (o : Option StreamOptions) :
    count_shutdowns (shutdown_events o) = if o.isSome then 1 else 0 := by
  rcases o with _ | opt
  · rfl
  · cases opt <;> rfl

/-- Claim C7: starting from `new`, any sequence of setter calls leaves at
most one server addressing mode set; each server-target setter clears the
other mode, writes the new target, and its effect trace is exactly the
graceful-shutdown trace computed from the pre-state socket (one shutdown
when a connection was open, none otherwise), issued before the target
field is overwritten. -/
theorem c7_addressing_modes_exclusive :
    (∀ (l : List SetterCall) (u ty : String),
        (apply_setters l (new u ty)).tak_server_ip_address = none ∨
        (apply_setters l (new u ty)).tak_server_domain = none) ∧
    (∀ (s : CotPublisher) (d : Url),
        (set_tak_server_domain s d).1.tak_server_ip_address = none ∧
        (set_tak_server_domain s d).1.tak_server_domain = some d ∧
        (set_tak_server_domain s d).2 = shutdown_events s.tak_server_socket ∧
        count_shutdowns (set_tak_server_domain s d).2 =
          if s.tak_server_socket.isSome then 1 else 0) ∧
    (∀ (s : CotPublisher) (a : IpAddr) (p : Nat),
        (set_tak_server_ip_address s a p).1.tak_server_domain = none ∧
        (set_tak_server_ip_address s a p).1.tak_server_ip_address = some (a, p) ∧
        (set_tak_server_ip_address s a p).2 = shutdown_events s.tak_server_socket ∧
        count_shutdowns (set_tak_server_ip_address s a p).2 =
          if s.tak_server_socket.isSome then 1 else 0) := by
  refine ⟨fun l u ty => apply_setters_mutex l (new u ty) (Or.inl rfl),
    fun s d => ⟨rfl, rfl, rfl, ?_⟩, fun s a p => ⟨rfl, rfl, rfl, ?_⟩⟩ <;>
    exact count_shutdowns_shutdown_events s.tak_server_socket

/-! ## Claim C2: which failures are contained and which panic -/

theorem root_cert_step_no_panic (p : PEM) (env : NetEnv)
    (h3 : env.stack_from_pem_ok = true) (h4 : env.x509_store_new_ok = true)
    (h5 : env.add_cert_ok = true) :
    root_cert_step p env ≠ CfgStep.panic := by
  cases p <;> simp [root_cert_step, h3, h4, h5] <;> split <;> simp

theorem client_cert_step_no_panic (p : PEM) (env : NetEnv)
    (h6 : env.x509_from_pem_ok = true) :
    client_cert_step p env ≠ CfgStep.panic := by
  cases p <;> simp [client_cert_step, h6] <;> split <;> simp

theorem client_key_step_no_panic (p : PEM) (env : NetEnv)
    (h7 : env.pkey_from_pem_ok = true) :
    client_key_step p env ≠ CfgStep.panic := by
  cases p <;> simp [client_key_step, h7] <;> split <;> simp

theorem tls_steps_no_panic (settings : TakServerSetting) (env : NetEnv)
    (h3 : env.stack_from_pem_ok = true) (h4 : env.x509_store_new_ok = true)
    (h5 : env.add_cert_ok = true) (h6 : env.x509_from_pem_ok = true)
    (h7 : env.pkey_from_pem_ok = true) :
    tls_steps settings env ≠ CfgStep.panic := by
  have r1 := root_cert_step_no_panic settings.root_cert env h3 h4 h5
  have r2 := client_cert_step_no_panic settings.client_cert env h6
  have r3 := client_key_step_no_panic settings.client_key env h7
  unfold tls_steps
  cases hr1 : root_cert_step settings.root_cert env <;>
    cases hr2 : client_cert_step settings.client_cert env <;>
    simp_all

theorem tak_server_connect_no_panic (s : CotPublisher) (env : NetEnv)
    (h2 : env.ssl_builder_ok = true) (h3 : env.stack_from_pem_ok = true)
    (h4 : env.x509_store_new_ok = true) (h5 : env.add_cert_ok = true)
    (h6 : env.x509_from_pem_ok = true) (h7 : env.pkey_from_pem_ok = true)
    (h8 : env.tls_handshake_write_ok = true)
    (h9 : s.tak_server_ip_address.isSome = true ∨ s.tak_server_domain = none ∨
          env.tcp_connect.isSome = true) :
    (tak_server_connect s env).panic = false := by
  unfold tak_server_connect
  split
  · rfl
  · rename_i hguard
    cases htcp : env.tcp_connect with
    | none =>
      have hip : s.tak_server_ip_address.isSome = true := by
        rcases h9 with h9 | h9 | h9
        · exact h9
        · cases hip2 : s.tak_server_ip_address with
          | none => exact absurd (by simp [hip2, h9]) hguard
          | some v => rfl
        · rw [htcp] at h9; cases h9
      simp [hip]
    | some hh =>
      have hsteps := tls_steps_no_panic (s.tak_server_settings.getD default_settings) env
        h3 h4 h5 h6 h7
      cases htls : (s.tak_server_settings.getD default_settings).tls with
      | false => simp [htls]
      | true =>
        cases hst : tls_steps (s.tak_server_settings.getD default_settings) env with
        | panic => exact absurd hst hsteps
        | failed => simp [htls, h2, hst]
        | ok =>
          cases htc : env.tls_connect with
          | none => simp [htls, h2, hst, htc]
          | some k => simp [htls, h2, hst, htc, h8]

theorem tak_server_connect_socket_none_of_tcp_fail (s : CotPublisher) (env : NetEnv)
    (htcp : env.tcp_connect = none) :
    (tak_server_connect s env).socket = none := by
  unfold tak_server_connect
  split
  · rfl
  · rw [htcp]

theorem multicast_block_no_panic (s : CotPublisher) (env : NetEnv) (b : List Nat)
    (h1 : env.udp_send_ok = true) :
    (multicast_block s env b).panicked = false := by
  unfold multicast_block
  cases hm : s.multicast with
  | none => rfl
  | some t =>
    cases hsock : (mcast_ensure_socket s env).1.multicast_socket <;> simp [hsock, h1]

theorem mcast_ensure_socket_server_fields (s : CotPublisher) (env : NetEnv) :
    (mcast_ensure_socket s env).1.tak_server_ip_address = s.tak_server_ip_address ∧
    (mcast_ensure_socket s env).1.tak_server_socket = s.tak_server_socket := by
  unfold mcast_ensure_socket
  cases s.multicast_socket
  · cases env.udp_bind <;> simp
  · simp

theorem multicast_block_server_fields (s : CotPublisher) (env : NetEnv) (b : List Nat) :
    (multicast_block s env b).state.tak_server_ip_address = s.tak_server_ip_address ∧
    (multicast_block s env b).state.tak_server_socket = s.tak_server_socket := by
  unfold multicast_block
  cases hm : s.multicast with
  | none => exact ⟨rfl, rfl⟩
  | some t =>
    cases hsock : (mcast_ensure_socket s env).1.multicast_socket <;>
      simpa [hsock] using mcast_ensure_socket_server_fields s env

theorem server_block_no_panic (st : CotPublisher) (env : NetEnv) (b : List Nat)
    (h2 : env.ssl_builder_ok = true) (h3 : env.stack_from_pem_ok = true)
    (h4 : env.x509_store_new_ok = true) (h5 : env.add_cert_ok = true)
    (h6 : env.x509_from_pem_ok = true) (h7 : env.pkey_from_pem_ok = true)
    (h8 : env.tls_handshake_write_ok = true) :
    (server_block st env b).panicked = false := by
  unfold server_block
  split
  · rename_i hip
    cases hsock : st.tak_server_socket with
    | some opt => rfl
    | none =>
      have hp := tak_server_connect_no_panic st env h2 h3 h4 h5 h6 h7 h8 (Or.inl hip)
      simp only [hp, Bool.false_eq_true, if_false]
      cases hr : (tak_server_connect st env).socket <;> simp
  · rfl

/-- Claim C2 (amended): publish and connect do not abort provided none of
the panicking operations fail — the multicast `send_to`, the inline-PEM
parses, the `SslConnector` builder, the TLS handshake-announcement write,
and a TCP connect failure while only a domain URL is configured; failures
of the remaining calls are resolved to "no connection" (third conjunct) or
ignored. -/
theorem c2_error_containment (s : CotPublisher) (enc : tak_proto.TakMessage → List Nat)
    (env : NetEnv)
    (h1 : env.udp_send_ok = true) (h2 : env.ssl_builder_ok = true)
    (h3 : env.stack_from_pem_ok = true) (h4 : env.x509_store_new_ok = true)
    (h5 : env.add_cert_ok = true) (h6 : env.x509_from_pem_ok = true)
    (h7 : env.pkey_from_pem_ok = true) (h8 : env.tls_handshake_write_ok = true)
    (h9 : s.tak_server_ip_address.isSome = true ∨ s.tak_server_domain = none ∨
          env.tcp_connect.isSome = true) :
    (publish s enc env).panicked = false ∧
    (connect s env).panicked = false ∧
    (env.tcp_connect = none → (connect s env).state.tak_server_socket = none) := by
  have hconn := tak_server_connect_no_panic s env h2 h3 h4 h5 h6 h7 h8 h9
  refine ⟨?_, ?_, ?_⟩
  · unfold publish
    split
    · rfl
    · have hm := multicast_block_no_panic s env (enc (create_cot s env.now)) h1
      simp only [hm, Bool.false_eq_true, if_false]
      exact server_block_no_panic _ env _ h2 h3 h4 h5 h6 h7 h8
  · unfold connect
    simp [hconn]
  · intro htcp
    have hsock := tak_server_connect_socket_none_of_tcp_fail s env htcp
    unfold connect
    simp [hconn, hsock]

/-- A publisher with only a multicast target, socket already bound. -/
def c2_state : CotPublisher :=
  { new "u2" "a-f-G" with
    multicast := some ("239.2.3.1", 6969)
    multicast_socket := some 0 }

/-- Counterexample to claim C2 as stated: a failing multicast
`send_to(..).unwrap()` during `publish` aborts the process. -/
theorem c2_counterexample : (publish c2_state enc0 env_sendfail).panicked = true := by
  decide

/-- Witness for C2 (amended) at a freshly constructed publisher and an
all-succeeding environment. -/
theorem c2_error_containment_witness :
    (env_ok.udp_send_ok = true ∧ env_ok.ssl_builder_ok = true ∧
     env_ok.stack_from_pem_ok = true ∧ env_ok.x509_store_new_ok = true ∧
     env_ok.add_cert_ok = true ∧ env_ok.x509_from_pem_ok = true ∧
     env_ok.pkey_from_pem_ok = true ∧ env_ok.tls_handshake_write_ok = true ∧
     (new "u1" "a-f-G").tak_server_domain = none) ∧
    ((publish (new "u1" "a-f-G") enc0 env_ok).panicked = false ∧
     (connect (new "u1" "a-f-G") env_ok).panicked = false ∧
     (env_ok.tcp_connect = none →
       (connect (new "u1" "a-f-G") env_ok).state.tak_server_socket = none)) :=
  ⟨⟨rfl, rfl, rfl, rfl, rfl, rfl, rfl, rfl, rfl⟩,
   c2_error_containment (new "u1" "a-f-G") enc0 env_ok rfl rfl rfl rfl rfl rfl rfl rfl
     (Or.inr (Or.inl rfl))⟩

/-! ## Claims C3 and C4: when publish and connect are no-ops -/

theorem mcast_trace_ne (s : CotPublisher) (env : NetEnv) (b : List Nat)
    (t : IpAddr × Nat) (hm : s.multicast = some t) :
    (multicast_block s env b).trace ≠ [] := by
  unfold multicast_block
  rw [hm]
  cases hsock : (mcast_ensure_socket s env).1.multicast_socket with
  | some h => simp
  | none =>
    unfold mcast_ensure_socket at hsock ⊢
    cases hs0 : s.multicast_socket with
    | some h0 => simp [hs0] at hsock
    | none => cases env.udp_bind <;> simp

theorem conn_trace_ne (s : CotPublisher) (env : NetEnv)
    (hip : s.tak_server_ip_address.isSome = true) :
    (tak_server_connect s env).trace ≠ [] := by
  unfold tak_server_connect
  have hguard : (s.tak_server_ip_address.isNone && s.tak_server_domain.isNone) = false := by
    cases h : s.tak_server_ip_address with
    | none => rw [h] at hip; cases hip
    | some v => simp [h]
  rw [hguard]
  cases htcp : env.tcp_connect with
  | none => simp
  | some hh =>
    cases htls : (s.tak_server_settings.getD default_settings).tls with
    | false => simp [htls]
    | true =>
      cases hb : env.ssl_builder_ok with
      | false => simp [htls, hb]
      | true =>
        cases hst : tls_steps (s.tak_server_settings.getD default_settings) env with
        | panic => simp [htls, hb, hst]
        | failed => simp [htls, hb, hst]
        | ok =>
          cases htc : env.tls_connect with
          | none => simp [htls, hb, hst, htc]
          | some k =>
            cases hw : env.tls_handshake_write_ok <;> simp [htls, hb, hst, htc, hw]

theorem server_block_trace_ne (st : CotPublisher) (env : NetEnv) (b : List Nat)
    (hip : st.tak_server_ip_address.isSome = true) :
    (server_block st env b).trace ≠ [] := by
  unfold server_block
  rw [if_pos hip]
  cases hsock : st.tak_server_socket with
  | some opt => simp [frame_writes]
  | none =>
    have hne := conn_trace_ne st env hip
    cases hp : (tak_server_connect st env).panic with
    | true => simpa [hp] using hne
    | false =>
      cases hr : (tak_server_connect st env).socket with
      | some opt => simp [hp, hr, frame_writes]
      | none => simpa [hp, hr] using hne

/-- A publisher configured only with a domain-URL server target. -/
def c3_state : CotPublisher :=
  { new "u3" "a-f-G" with tak_server_domain := some "ssl://takserver.example.com:8089" }

/-- Counterexample to claim C3 as stated: with a server target configured
by domain URL (and nothing else), `publish` is a complete no-op even
though a server destination is configured. -/
theorem c3_counterexample :
    c3_state.tak_server_domain.isSome = true ∧
    publish c3_state enc0 env_ok = ⟨false, c3_state, []⟩ :=
  ⟨rfl, rfl⟩

/-- Claim C3 (amended): `publish` is a no-op with no side effect exactly
when neither a multicast target nor an IP-address server target is
configured (a domain-only server target is ignored); otherwise it always
issues at least one network effect, and a multicast bind failure does not
prevent the server frames from being written. -/
theorem c3_publish_noop_characterization :
    (∀ (s : CotPublisher) (enc : tak_proto.TakMessage → List Nat) (env : NetEnv),
        s.multicast = none → s.tak_server_ip_address = none →
        publish s enc env = ⟨false, s, []⟩) ∧
    (∀ (s : CotPublisher) (enc : tak_proto.TakMessage → List Nat) (env : NetEnv),
        s.multicast.isSome = true ∨ s.tak_server_ip_address.isSome = true →
        (publish s enc env).trace ≠ []) ∧
    (∀ (s : CotPublisher) (enc : tak_proto.TakMessage → List Nat) (env : NetEnv)
        (t : IpAddr × Nat) (opt : StreamOptions),
        s.multicast = some t → s.multicast_socket = none → env.udp_bind = none →
        s.tak_server_ip_address.isSome = true → s.tak_server_socket = some opt →
        (publish s enc env).trace =
          NetEvent.udpBind multicast_bind_addr false ::
            frame_writes opt.handle (enc (create_cot s env.now))) := by
  refine ⟨?_, ?_, ?_⟩
  · intro s enc env hm hip
    unfold publish
    simp [hm, hip]
  · intro s enc env h
    have hguard : (s.multicast.isNone && s.tak_server_ip_address.isNone) = false := by
      rcases h with h | h <;> cases hm : s.multicast <;>
        cases hi : s.tak_server_ip_address <;> simp_all
    unfold publish
    rw [hguard]
    simp only [Bool.false_eq_true, if_false]
    cases hm : s.multicast with
    | some t =>
      have mne := mcast_trace_ne s env (enc (create_cot s env.now)) t hm
      cases hp : (multicast_block s env (enc (create_cot s env.now))).panicked with
      | true => simpa [hp] using mne
      | false =>
        simp only [hp, Bool.false_eq_true, if_false]
        exact fun hc => mne (List.append_eq_nil.mp hc).1
    | none =>
      have hip : s.tak_server_ip_address.isSome = true := by
        rcases h with h | h
        · rw [hm] at h; cases h
        · exact h
      have sne := server_block_trace_ne s env (enc (create_cot s env.now)) hip
      simp only [multicast_block, hm, List.nil_append]
      simpa using sne
  · intro s enc env t opt hm hsock0 hbind hip hsrv
    unfold publish
    simp [publish, multicast_block, mcast_ensure_socket, server_block, hm, hsock0, hbind,
      hip, hsrv]

/-- A publisher with multicast and IP server configured, server stream
already open, multicast socket not yet bound. -/
def c3w_state : CotPublisher :=
  { new "u3w" "a-f-G" with
    multicast := some ("239.2.3.1", 6969)
    tak_server_ip_address := some ("10.0.0.1", 8089)
    tak_server_socket := some (StreamOptions.tcp 7) }

/-- Witness for C3 (amended) at concrete publishers and environments. -/
theorem c3_publish_noop_witness :
    ((new "u3" "t").multicast = none ∧ (new "u3" "t").tak_server_ip_address = none ∧
      publish (new "u3" "t") enc0 env_ok = ⟨false, new "u3" "t", []⟩) ∧
    (c3w_state.multicast.isSome = true ∧ (publish c3w_state enc0 env_bindfail).trace ≠ []) ∧
    ((publish c3w_state enc0 env_bindfail).trace =
      NetEvent.udpBind multicast_bind_addr false ::
        frame_writes (StreamOptions.tcp 7).handle (enc0 (create_cot c3w_state env_bindfail.now))) :=
  ⟨⟨rfl, rfl, c3_publish_noop_characterization.1 (new "u3" "t") enc0 env_ok rfl rfl⟩,
   ⟨rfl, c3_publish_noop_characterization.2.1 c3w_state enc0 env_bindfail (Or.inl rfl)⟩,
   c3_publish_noop_characterization.2.2 c3w_state enc0 env_bindfail ("239.2.3.1", 6969)
     (StreamOptions.tcp 7) rfl rfl rfl rfl rfl⟩

/-- A publisher with an IP server target and an already-open connection. -/
def c4_state : CotPublisher :=
  { new "u4" "a-f-G" with
    tak_server_ip_address := some ("10.0.0.1", 8089)
    tak_server_socket := some (StreamOptions.tcp 5) }

/-- Counterexample to claim C4 as stated: with the connection already open,
`connect` is not a no-op — it opens a fresh connection (new handle, a new
TCP connect and handshake write) and silently replaces the old socket. -/
theorem c4_counterexample :
    c4_state.tak_server_socket = some (StreamOptions.tcp 5) ∧
    (connect c4_state env_ok).state.tak_server_socket = some (StreamOptions.tcp 1) ∧
    (connect c4_state env_ok).trace =
      [NetEvent.tcpConnect "10.0.0.1:8089" true,
       NetEvent.streamWrite 1 protocol_change_bytes] :=
  ⟨rfl, rfl, rfl⟩

/-- Claim C4 (amended): `connect` is an idempotent no-op only when no
server destination is configured (and no connection exists); when a
destination is configured it always attempts a fresh connection, replacing
any existing open socket without shutting it down. -/
theorem c4_connect_behaviour :
    (∀ (s : CotPublisher) (env : NetEnv),
        s.tak_server_ip_address = none → s.tak_server_domain = none →
        s.tak_server_socket = none →
        connect s env = ⟨false, s, []⟩) ∧
    (∀ (s : CotPublisher) (env : NetEnv) (a : IpAddr) (p : Nat) (hh : Nat),
        s.tak_server_ip_address = some (a, p) → s.tak_server_settings = none →
        env.tcp_connect = some hh →
        (connect s env).state.tak_server_socket = some (StreamOptions.tcp hh) ∧
        (connect s env).trace =
          [NetEvent.tcpConnect (server_address s) true,
           NetEvent.streamWrite hh protocol_change_bytes]) := by
  constructor
  · intro s env hip hd hsock
    have hconn : tak_server_connect s env = ⟨none, [], false⟩ := by
      unfold tak_server_connect
      simp [hip, hd]
    unfold connect
    rw [hconn]
    show (⟨false, { s with tak_server_socket := none }, []⟩ : RunResult) = ⟨false, s, []⟩
    rw [← hsock]
  · intro s env a p hh hip hset htcp
    have hconn : tak_server_connect s env =
        ⟨some (StreamOptions.tcp hh),
         [NetEvent.tcpConnect (server_address s) true,
          NetEvent.streamWrite hh protocol_change_bytes], false⟩ := by
      simp [tak_server_connect, hip, hset, htcp, default_settings]
    unfold connect
    rw [hconn]
    exact ⟨rfl, rfl⟩

/-- Witness for C4 (amended) at a fresh publisher and at `c4_state`. -/
theorem c4_connect_behaviour_witness :
    ((new "u4w" "t").tak_server_ip_address = none ∧
      (new "u4w" "t").tak_server_domain = none ∧
      (new "u4w" "t").tak_server_socket = none ∧
      connect (new "u4w" "t") env_ok = ⟨false, new "u4w" "t", []⟩) ∧
    (c4_state.tak_server_ip_address = some ("10.0.0.1", 8089) ∧
      c4_state.tak_server_settings = none ∧ env_ok.tcp_connect = some 1 ∧
      (connect c4_state env_ok).state.tak_server_socket = some (StreamOptions.tcp 1) ∧
      (connect c4_state env_ok).trace =
        [NetEvent.tcpConnect (server_address c4_state) true,
         NetEvent.streamWrite 1 protocol_change_bytes]) :=
  ⟨⟨rfl, rfl, rfl, c4_connect_behaviour.1 (new "u4w" "t") env_ok rfl rfl rfl⟩,
   ⟨rfl, rfl, rfl,
    (c4_connect_behaviour.2 c4_state env_ok "10.0.0.1" 8089 1 rfl rfl rfl).1,
    (c4_connect_behaviour.2 c4_state env_ok "10.0.0.1" 8089 1 rfl rfl rfl).2⟩⟩

/-! ## Claim C6: the two wire framings -/

theorem mcast_ensure_socket_no_send (s : CotPublisher) (env : NetEnv)
    (h : Nat) (bytes : List Nat) (d : IpAddr × Nat) :
    NetEvent.udpSendTo h bytes d ∉ (mcast_ensure_socket s env).2 := by
  unfold mcast_ensure_socket
  cases s.multicast_socket
  · cases env.udp_bind <;> simp
  · simp

theorem multicast_block_udp_bytes (s : CotPublisher) (env : NetEnv) (b : List Nat)
    (h : Nat) (bytes : List Nat) (d : IpAddr × Nat)
    (hmem : NetEvent.udpSendTo h bytes d ∈ (multicast_block s env b).trace) :
    bytes = [0xbf, 0x01, 0xbf] ++ b := by
  unfold multicast_block at hmem
  cases hm : s.multicast with
  | none => rw [hm] at hmem; simp at hmem
  | some t =>
    rw [hm] at hmem
    cases hsock : (mcast_ensure_socket s env).1.multicast_socket with
    | none =>
      rw [hsock] at hmem
      exact absurd hmem (mcast_ensure_socket_no_send s env h bytes d)
    | some hh =>
      rw [hsock] at hmem
      simp only [List.mem_append, List.mem_singleton, NetEvent.udpSendTo.injEq] at hmem
      rcases hmem with hmem | hmem
      · exact absurd hmem (mcast_ensure_socket_no_send s env h bytes d)
      · exact hmem.2.1

theorem multicast_block_buffer (s : CotPublisher) (env : NetEnv) (b : List Nat) :
    (multicast_block s env b).buffer = b ∨ (multicast_block s env b).buffer = [] := by
  unfold multicast_block
  cases hm : s.multicast with
  | none => exact Or.inl rfl
  | some t =>
    cases hsock : (mcast_ensure_socket s env).1.multicast_socket with
    | none => exact Or.inl rfl
    | some hh => exact Or.inr rfl

theorem tak_server_connect_no_send (s : CotPublisher) (env : NetEnv)
    (h : Nat) (bytes : List Nat) (d : IpAddr × Nat) :
    NetEvent.udpSendTo h bytes d ∉ (tak_server_connect s env).trace := by
  unfold tak_server_connect
  split
  · simp
  · cases htcp : env.tcp_connect with
    | none => simp
    | some hh =>
      cases htls : (s.tak_server_settings.getD default_settings).tls with
      | false => simp [htls]
      | true =>
        cases hb : env.ssl_builder_ok with
        | false => simp [htls, hb]
        | true =>
          cases hst : tls_steps (s.tak_server_settings.getD default_settings) env with
          | panic => simp [htls, hb, hst]
          | failed => simp [htls, hb, hst]
          | ok =>
            cases htc : env.tls_connect with
            | none => simp [htls, hb, hst, htc]
            | some k =>
              cases hw : env.tls_handshake_write_ok <;> simp [htls, hb, hst, htc, hw]

theorem server_block_no_send (st : CotPublisher) (env : NetEnv) (b : List Nat)
    (h : Nat) (bytes : List Nat) (d : IpAddr × Nat) :
    NetEvent.udpSendTo h bytes d ∉ (server_block st env b).trace := by
  unfold server_block
  split
  · cases hsock : st.tak_server_socket with
    | some opt => simp [frame_writes]
    | none =>
      have hc := tak_server_connect_no_send st env h bytes d
      cases hp : (tak_server_connect st env).panic with
      | true => simpa [hp] using hc
      | false =>
        cases hr : (tak_server_connect st env).socket with
        | some opt => simpa [hp, hr, frame_writes] using hc
        | none => simpa [hp, hr] using hc
  · simp

/-- The payload of every `streamWrite` effect in a trace, in order.  This
is the complete sequence of bytes-writes issued on the server stream, so a
statement about this list covers every stream write an operation makes. -/
def stream_write_bodies (tr : List NetEvent) : List (List Nat) :=
  tr.filterMap fun e => match e with
    | NetEvent.streamWrite _ b => some b
    | _ => none

theorem stream_write_bodies_append (a b : List NetEvent) :
    stream_write_bodies (a ++ b) = stream_write_bodies a ++ stream_write_bodies b := by
  simp [stream_write_bodies]

theorem stream_write_bodies_frame (h : Nat) (b : List Nat) :
    stream_write_bodies (frame_writes h b) = [[0xbf], get_varint b.length, b] := rfl

theorem mcast_ensure_socket_no_stream (s : CotPublisher) (env : NetEnv) :
    stream_write_bodies (mcast_ensure_socket s env).2 = [] := by
  unfold mcast_ensure_socket
  cases s.multicast_socket
  · cases env.udp_bind <;> rfl
  · rfl

theorem multicast_block_no_stream (s : CotPublisher) (env : NetEnv) (b : List Nat) :
    stream_write_bodies (multicast_block s env b).trace = [] := by
  unfold multicast_block
  cases hm : s.multicast with
  | none => rfl
  | some t =>
    cases hsock : (mcast_ensure_socket s env).1.multicast_socket with
    | none => simpa using mcast_ensure_socket_no_stream s env
    | some hh =>
      simp only [stream_write_bodies_append, mcast_ensure_socket_no_stream s env,
        List.nil_append]
      rfl

/-- The stream writes of one `tak_server_connect` call are either none, or
exactly the fixed handshake announcement. -/
theorem conn_swb_cases (s : CotPublisher) (env : NetEnv) :
    stream_write_bodies (tak_server_connect s env).trace = [] ∨
    stream_write_bodies (tak_server_connect s env).trace = [protocol_change_bytes] := by
  unfold tak_server_connect
  split
  · exact Or.inl rfl
  · cases htcp : env.tcp_connect with
    | none => left; simp [stream_write_bodies]
    | some hh =>
      cases htls : (s.tak_server_settings.getD default_settings).tls with
      | false => right; simp [htls, stream_write_bodies]
      | true =>
        cases hb : env.ssl_builder_ok with
        | false => left; simp [htls, hb, stream_write_bodies]
        | true =>
          cases hst : tls_steps (s.tak_server_settings.getD default_settings) env with
          | panic => left; simp [htls, hb, hst, stream_write_bodies]
          | failed => left; simp [htls, hb, hst, stream_write_bodies]
          | ok =>
            cases htc : env.tls_connect with
            | none => left; simp [htls, hb, hst, htc, stream_write_bodies]
            | some k =>
              cases hw : env.tls_handshake_write_ok with
              | false => right; simp [htls, hb, hst, htc, hw, stream_write_bodies]
              | true => right; simp [htls, hb, hst, htc, hw, stream_write_bodies]

/-- The stream writes of the server block are exhaustively one of: none,
exactly one framed message, the handshake announcement followed by exactly
one framed message (lazy connect), or the announcement alone (the connect
attempt panicked after writing it). -/
theorem server_block_swb (st : CotPublisher) (env : NetEnv) (b : List Nat) :
    stream_write_bodies (server_block st env b).trace = [] ∨
    stream_write_bodies (server_block st env b).trace =
      [[0xbf], get_varint b.length, b] ∨
    stream_write_bodies (server_block st env b).trace =
      [protocol_change_bytes, [0xbf], get_varint b.length, b] ∨
    stream_write_bodies (server_block st env b).trace = [protocol_change_bytes] := by
  unfold server_block
  split
  · cases hsock : st.tak_server_socket with
    | some opt => exact Or.inr (Or.inl (stream_write_bodies_frame opt.handle b))
    | none =>
      cases hp : (tak_server_connect st env).panic with
      | true =>
        rcases conn_swb_cases st env with hc | hc
        · exact Or.inl hc
        · exact Or.inr (Or.inr (Or.inr hc))
      | false =>
        cases hr : (tak_server_connect st env).socket with
        | some opt =>
          rcases conn_swb_cases st env with hc | hc
          · right; left
            simp [stream_write_bodies_append, hc, stream_write_bodies_frame]
          · right; right; left
            simp [stream_write_bodies_append, hc, stream_write_bodies_frame]
        | none =>
          rcases conn_swb_cases st env with hc | hc
          · exact Or.inl hc
          · exact Or.inr (Or.inr (Or.inr hc))
  · exact Or.inl rfl

/-- Claim C6: every multicast datagram sent by `publish` is exactly the
3-byte magic `0xBF 0x01 0xBF` followed by the serialized payload, and the
stream writes issued by one `publish` call are exhaustively characterized:
no stream write at all, exactly one framed message — the magic byte
`[0xBF]`, the varint of the body length, then the body — optionally
preceded by the fixed handshake announcement written while lazily
establishing the connection, or the announcement alone (when the
post-handshake write panic aborts the call).  In every framed message the
varint decodes to the exact byte length of the body that follows it on the
stream, and the body is the single serialized payload of this call (or the
empty remainder the multicast branch left of it). -/
theorem c6_wire_framing (s : CotPublisher) (enc : tak_proto.TakMessage → List Nat)
    (env : NetEnv)
    (hlen : (enc (create_cot s env.now)).length < 4294967296) :
    (∀ (h : Nat) (bytes : List Nat) (d : IpAddr × Nat),
        NetEvent.udpSendTo h bytes d ∈ (publish s enc env).trace →
        bytes = [0xbf, 0x01, 0xbf] ++ enc (create_cot s env.now)) ∧
    (∃ body, (body = enc (create_cot s env.now) ∨ body = []) ∧
        decode_varint (get_varint body.length) = body.length ∧
        (stream_write_bodies (publish s enc env).trace = [] ∨
         stream_write_bodies (publish s enc env).trace =
           [[0xbf], get_varint body.length, body] ∨
         stream_write_bodies (publish s enc env).trace =
           [protocol_change_bytes, [0xbf], get_varint body.length, body] ∨
         stream_write_bodies (publish s enc env).trace = [protocol_change_bytes])) := by
  constructor
  · intro h bytes d hmem
    unfold publish at hmem
    split at hmem
    · simp at hmem
    · split at hmem
      · exact multicast_block_udp_bytes s env _ h bytes d hmem
      · rcases List.mem_append.mp hmem with hmem2 | hmem2
        · exact multicast_block_udp_bytes s env _ h bytes d hmem2
        · exact absurd hmem2 (server_block_no_send _ env _ h bytes d)
  · refine ⟨(multicast_block s env (enc (create_cot s env.now))).buffer,
      multicast_block_buffer s env (enc (create_cot s env.now)), ?_, ?_⟩
    · rcases multicast_block_buffer s env (enc (create_cot s env.now)) with hb | hb
      · rw [hb]; exact decode_get_varint _ hlen
      · rw [hb]; decide
    · unfold publish
      split
      · exact Or.inl rfl
      · split
        · exact Or.inl (multicast_block_no_stream s env (enc (create_cot s env.now)))
        · have hmb := multicast_block_no_stream s env (enc (create_cot s env.now))
          have hsb := server_block_swb
            (multicast_block s env (enc (create_cot s env.now))).state env
            (multicast_block s env (enc (create_cot s env.now))).buffer
          simp only [stream_write_bodies_append, hmb, List.nil_append]
          exact hsb

/-- Witness for C6 at a concrete publisher with both destinations and an
open server stream. -/
theorem c6_wire_framing_witness :
    ((enc0 (create_cot c3w_state env_ok.now)).length < 4294967296) ∧
    ((∀ (h : Nat) (bytes : List Nat) (d : IpAddr × Nat),
        NetEvent.udpSendTo h bytes d ∈ (publish c3w_state enc0 env_ok).trace →
        bytes = [0xbf, 0x01, 0xbf] ++ enc0 (create_cot c3w_state env_ok.now)) ∧
     (∃ body, (body = enc0 (create_cot c3w_state env_ok.now) ∨ body = []) ∧
        decode_varint (get_varint body.length) = body.length ∧
        (stream_write_bodies (publish c3w_state enc0 env_ok).trace = [] ∨
         stream_write_bodies (publish c3w_state enc0 env_ok).trace =
           [[0xbf], get_varint body.length, body] ∨
         stream_write_bodies (publish c3w_state enc0 env_ok).trace =
           [protocol_change_bytes, [0xbf], get_varint body.length, body] ∨
         stream_write_bodies (publish c3w_state enc0 env_ok).trace =
           [protocol_change_bytes]))) :=
  ⟨by decide, c6_wire_framing c3w_state enc0 env_ok (by decide)⟩
